import Mathlib

/-!
Verification of the `ProxyPool` class (src/src/ProxyPool.js): a shallow
embedding of its data model and operations, with theorems about the pool
invariants, the round-robin selector, the validation cache, the provider
client, the validator verdict and the refill orchestrator.

Modelling conventions: JS numbers are `Int` (timestamps and config values),
array indices are `Nat`, the `Map` used for the validation cache is an
association list in insertion order, and asynchronous network outcomes are
supplied by an `Env` oracle (one response per refill attempt, one probe
verdict per proxy string, a fixed clock for the cycle).
-/

/-- Proxy object pushed into `availableProxies` by `addValidProxies`:
`{ ip, port, protocol, full, addedAt }`.  `port` is the second component of
`proxy.split(":")`, hence possibly `undefined`, modelled as `Option`. -/
structure Proxy where
  ip : String
  port : Option String
  protocol : String
  full : String
  addedAt : Int
deriving DecidableEq

/-- Entry of `proxyCache`: `{ valid, timestamp }`. -/
structure CacheEntry where
  valid : Bool
  timestamp : Int
deriving DecidableEq

/-- Mutable fields of a `ProxyPool` instance that the claims mention. -/
structure PoolState where
  availableProxies : List Proxy
  currentIndex : Nat
  isRefilling : Bool
  proxyCache : List (String × CacheEntry)
deriving DecidableEq

/-- Constructor options object: each field is `some v` when supplied and
`none` when absent (`undefined`).  Numeric fields are JS numbers (`Int`),
the falsy number being `0`; string fields are falsy exactly when empty. -/
structure Options where
  targetCount : Option Int := none
  batchSize : Option Int := none
  testTimeout : Option Int := none
  requestTimeout : Option Int := none
  targetUrl : Option String := none
  concurrentRequests : Option Int := none
  minThreshold : Option Int := none
  checkInterval : Option Int := none
  proxyProtocol : Option String := none
  maxRefillAttempts : Option Int := none
  retryDelay : Option Int := none
  useCache : Option Bool := none
  cacheExpiry : Option Int := none

/-- Immutable configuration fields set once by the constructor. -/
structure Config where
  targetCount : Int
  batchSize : Int
  testTimeout : Int
  requestTimeout : Int
  targetUrl : String
  concurrentRequests : Int
  minThreshold : Int
  checkInterval : Int
  proxyProtocol : String
  maxRefillAttempts : Int
  retryDelay : Int
  useCache : Bool
  cacheExpiry : Int
deriving DecidableEq

/-- JS `options.x || default` for a numeric option: the supplied value is
kept iff it is present and truthy (nonzero). -/
def jsOrNum (o : Option Int) (d : Int) : Int :=
  match o with
  | none => d
  | some n => if n = 0 then d else n

/-- JS `options.x || default` for a string option: the supplied value is
kept iff it is present and truthy (nonempty). -/
def jsOrStr (o : Option String) (d : String) : String :=
  match o with
  | none => d
  | some s => if s = "" then d else s

/-- The `ProxyPool` constructor, configuration part (lines 26–38 of the
source): every option except `useCache` defaults through `||`; `useCache`
defaults through an explicit `!== undefined` test. -/
def mkConfig (o : Options) : Config where
  targetCount := jsOrNum o.targetCount 20
  batchSize := jsOrNum o.batchSize 20
  testTimeout := jsOrNum o.testTimeout 5000
  requestTimeout := jsOrNum o.requestTimeout 10000
  targetUrl := jsOrStr o.targetUrl "https://www.notion.so"
  concurrentRequests := jsOrNum o.concurrentRequests 10
  minThreshold := jsOrNum o.minThreshold 5
  checkInterval := jsOrNum o.checkInterval 30000
  proxyProtocol := jsOrStr o.proxyProtocol "http"
  maxRefillAttempts := jsOrNum o.maxRefillAttempts 20
  retryDelay := jsOrNum o.retryDelay 1000
  useCache := match o.useCache with
    | none => true
    | some b => b
  cacheExpiry := jsOrNum o.cacheExpiry 3600000

/-- The constructor's internal-state initialisation (lines 41–46). -/
def initialState : PoolState where
  availableProxies := []
  currentIndex := 0
  isRefilling := false
  proxyCache := []

/-- Configuration produced by `new ProxyPool()` with no options. -/
def defaultConfig : Config := mkConfig {}

/-! ### Validation cache (`proxyCache`: a JS `Map` in insertion order) -/

/-- JS `Map.prototype.set`: update in place when the key exists (insertion
order preserved), otherwise append. -/
def mapSet (m : List (String × CacheEntry)) (k : String) (v : CacheEntry) :
    List (String × CacheEntry) :=
  if m.any (fun kv => kv.1 == k) then
    m.map (fun kv => if kv.1 == k then (k, v) else kv)
  else m ++ [(k, v)]

/-- JS `Map.prototype.get` (with `has` folded in): first binding of `k`. -/
def mapGet (m : List (String × CacheEntry)) (k : String) : Option CacheEntry :=
  (m.find? (fun kv => kv.1 == k)).map (fun kv => kv.2)

/-- Model of `cleanupCache()` (lines 461–477): when the cache is enabled, delete every
entry with `now - data.timestamp > this.cacheExpiry` (strict comparison). -/
def cleanupCache (cfg : Config) (now : Int) (cache : List (String × CacheEntry)) :
    List (String × CacheEntry) :=
  if cfg.useCache then
    cache.filter (fun kv => !(decide (now - kv.2.timestamp > cfg.cacheExpiry)))
  else cache

/-! ### Candidate provider client (`getProxiesFromProvider`, lines 259–281) -/

/-- The `data.data` object of a provider response body. -/
structure ProviderData where
  countField : Option Int
  proxies : Option (List String)
deriving DecidableEq

/-- A provider response body (`response.data`): its `code` field and its
`data` object, each possibly absent. -/
structure ProviderBody where
  code : Option Int
  dataField : Option ProviderData
deriving DecidableEq

/-- Outcome of the outbound `axios.get` to the listing service:
a transport failure (the promise rejects) or a response whose `data`
field is either absent/falsy (`none`) or a body. -/
inductive ProviderResponse where
  | transportError
  | ok (body : Option ProviderBody)
deriving DecidableEq

/-- JS return value of `getProxiesFromProvider`: an array of strings, or
`undefined` (the value of a missing `proxies` property). -/
inductive FetchResult where
  | list (xs : List String)
  | undef
deriving DecidableEq

/-- The body of `getProxiesFromProvider`'s `try` block: `axios` rejection
propagates as an exception, and so does the `TypeError` raised by reading
`response.data.data.count` when `data.data` is absent.  A present `data`
object with a missing `proxies` property returns `undefined`. -/
def providerTryBlock : ProviderResponse → Except Unit FetchResult
  | .transportError => .error ()
  | .ok none => .ok (.list [])
  | .ok (some b) =>
    if b.code = some 200 then
      match b.dataField with
      | none => .error ()
      | some d =>
        match d.proxies with
        | some xs => .ok (.list xs)
        | none => .ok .undef
    else .ok (.list [])

/-- Model of `getProxiesFromProvider` (lines 259–281): the `try` block with its
`catch` returning `[]`. -/
def getProxiesFromProvider (r : ProviderResponse) : FetchResult :=
  match providerTryBlock r with
  | .ok v => v
  | .error _ => .list []

/-! ### Proxy validator (`testProxy`, lines 333–377) -/

/-- The `response.data` of a probe through a candidate proxy: a string body,
a truthy non-string body, or a falsy non-string body (`null`, `undefined`,
`0`, ...). -/
inductive ProbeBody where
  | str (s : String)
  | nonTextTruthy
  | falsyNonString
deriving DecidableEq

/-- Outcome of the probe request through a candidate: a transport error or
timeout (the promise rejects), or a response with a status and a body. -/
inductive ProbeOutcome where
  | err
  | resp (status : Int) (body : ProbeBody)
deriving DecidableEq

/-- JS `String.prototype.includes`: substring containment. -/
def strContainsSub (s pat : String) : Bool := decide (pat.data <:+: s.data)

/-- Lower-cased copy of a string, used to state case-insensitive matching. -/
def lowerStr (s : String) : String := String.mk (s.data.map Char.toLower)

/-- Model of `testProxy` (lines 333–377), as a function of the probe outcome:
`isValid = response.status === 200 && isTargetContent` where
`isTargetContent = response.data && typeof response.data === 'string' &&
(data.includes('notion') || data.includes('Notion'))`; any rejection is
caught and yields `false`. -/
def testProxy : ProbeOutcome → Bool
  | .err => false
  | .resp status body =>
    let isTargetContent : Bool :=
      match body with
      | .str s => (!(s == "")) && (strContainsSub s "notion" || strContainsSub s "Notion")
      | .nonTextTruthy => false
      | .falsyNonString => false
    (status == 200) && isTargetContent

/-- Modelled from the spec (§4.3 verdict rule), for comparison with
`testProxy`: valid iff the status is exactly 200 and the body is textual and
contains the marker `"notion"` case-insensitively. -/
def specVerdictRule : ProbeOutcome → Bool
  | .err => false
  | .resp status body =>
    match body with
    | .str s => (status == 200) && strContainsSub (lowerStr s) "notion"
    | .nonTextTruthy => false
    | .falsyNonString => false

/-- The amended verdict rule: valid iff the status is exactly 200 and the
body is textual and contains `"notion"` or `"Notion"` as exact substrings. -/
def amendedVerdictRule : ProbeOutcome → Bool
  | .err => false
  | .resp status body =>
    match body with
    | .str s => (status == 200) && (strContainsSub s "notion" || strContainsSub s "Notion")
    | .nonTextTruthy => false
    | .falsyNonString => false

/-! ### Pool operations -/

/-- Splitting a character list at a separator, as JS `split` does with a
single-character separator: `"" → [""]`, `"a:b" → ["a", "b"]`. -/
def splitChars (sep : Char) : List Char → List Char → List (List Char)
  | [], acc => [acc.reverse]
  | c :: rest, acc =>
    if c = sep then acc.reverse :: splitChars sep rest []
    else splitChars sep rest (c :: acc)

/-- The destructuring `const [ip, port] = proxy.split(':')`: first part and
(possibly absent) second part of the split. -/
def splitProxy (s : String) : String × Option String :=
  match (splitChars ':' s.data []).map String.mk with
  | [] => ("", none)
  | a :: rest => (a, rest.head?)

/-- Model of `getProxy()` (lines 383–394): `null` on an empty pool, otherwise the
member at `currentIndex`, advancing the cursor modulo the pool length. -/
def getProxy (s : PoolState) : Option Proxy × PoolState :=
  if s.availableProxies.length = 0 then (none, s)
  else
    (s.availableProxies.get? s.currentIndex,
     { s with currentIndex := (s.currentIndex + 1) % s.availableProxies.length })

/-- Runs `n` successive `getProxy()` calls with no intervening mutation: the list
of returned values and the final state. -/
def runGetProxy : Nat → PoolState → List (Option Proxy) × PoolState
  | 0, s => ([], s)
  | n + 1, s =>
    let r := getProxy s
    let rest := runGetProxy n r.2
    (r.1 :: rest.1, rest.2)

/-- Model of `removeProxy(ip, port)` (lines 402–440): mark the member invalid in the
cache when found, filter it out of the pool, clamp the cursor back to 0 when
it fell off the end of a non-empty pool, and report whether the pool shrank.
(The trailing fire-and-forget `checkAndRefill()` belongs to the orchestrator
dynamics and is not part of the removal's own effect.) -/
def removeProxy (cfg : Config) (now : Int) (ip : String) (port : String)
    (s : PoolState) : Bool × PoolState :=
  let initialLength := s.availableProxies.length
  let found := s.availableProxies.any (fun p => p.ip == ip && p.port == some port)
  let cache2 :=
    if found && cfg.useCache then
      mapSet s.proxyCache (ip ++ ":" ++ port) ⟨false, now⟩
    else s.proxyCache
  let pool2 := s.availableProxies.filter (fun p => !(p.ip == ip && p.port == some port))
  let idx2 :=
    if pool2.length ≤ s.currentIndex ∧ 0 < pool2.length then 0 else s.currentIndex
  (decide (pool2.length < initialLength),
   { s with availableProxies := pool2, currentIndex := idx2, proxyCache := cache2 })

/-- Model of `filterExistingProxies(proxies)` (lines 202–207): keep the candidate
strings whose `(ip, port)` split matches no current pool member. -/
def filterExistingProxies (pool : List Proxy) (proxies : List String) : List String :=
  proxies.filter (fun proxy =>
    let pr := splitProxy proxy
    !(pool.any (fun p => p.ip == pr.1 && p.port == pr.2)))

/-! ### Environment oracle for one refill cycle -/

/-- Oracle supplying the asynchronous outcomes of one refill cycle: the
clock, the provider's raw response for each attempt number and requested
count, and each candidate's probe verdict (`testProxy`'s boolean outcome,
rejections included as `false` via the `.catch`). -/
structure Env where
  now : Int
  provider : Nat → Int → ProviderResponse
  probe : String → Bool

/-- Model of `addValidProxies(results)` (lines 213–252): for each `(proxy, result)`,
admit a valid candidate not already in the pool (recording it valid in the
cache) and stop as soon as the pool reaches the target; record invalid
candidates in the cache. -/
def addValidProxies (cfg : Config) (env : Env) :
    List (String × Bool) → PoolState → PoolState
  | [], s => s
  | (proxy, result) :: rest, s =>
    if result then
      let pr := splitProxy proxy
      if s.availableProxies.any (fun p => p.ip == pr.1 && p.port == pr.2) then
        addValidProxies cfg env rest s
      else
        let obj : Proxy :=
          ⟨pr.1, pr.2, cfg.proxyProtocol, cfg.proxyProtocol ++ "://" ++ proxy, env.now⟩
        let s2 : PoolState :=
          { s with
            availableProxies := s.availableProxies ++ [obj],
            proxyCache :=
              if cfg.useCache then mapSet s.proxyCache proxy ⟨true, env.now⟩
              else s.proxyCache }
        if cfg.targetCount ≤ (s2.availableProxies.length : Int) then s2
        else addValidProxies cfg env rest s2
    else
      if cfg.useCache then
        addValidProxies cfg env rest
          { s with proxyCache := mapSet s.proxyCache proxy ⟨false, env.now⟩ }
      else addValidProxies cfg env rest s

/-- The per-candidate step of `testProxiesConcurrently` (lines 298–313):
use a fresh cached verdict when the cache is enabled and has the key,
otherwise probe. -/
def cacheConsult (cfg : Config) (env : Env) (cache : List (String × CacheEntry))
    (proxy : String) : Bool :=
  if cfg.useCache then
    match mapGet cache proxy with
    | some e =>
      if env.now - e.timestamp < cfg.cacheExpiry then e.valid else env.probe proxy
    | none => env.probe proxy
  else env.probe proxy

/-- Chunked testing loop of `testProxiesConcurrently` (lines 296–323):
process chunks of `csize` candidates, appending the verdicts, and stop once
the accumulated success count reaches `remainingNeeded`.  The fuel argument
is initialised to the candidate count; since every step consumes at least
one candidate (`csize = 0`, where the JS loop makes no progress, stops the
model), the fuel never runs out on a reachable call. -/
def testLoop (cfg : Config) (env : Env) (cache : List (String × CacheEntry))
    (csize : Nat) (remainingNeeded : Int) :
    Nat → List String → List (String × Bool) → List (String × Bool)
  | 0, _, results => results
  | _, [], results => results
  | fuel + 1, p :: rest, results =>
    if csize = 0 then results
    else
      let batch := (p :: rest).take csize
      let results2 := results ++ batch.map (fun q => (q, cacheConsult cfg env cache q))
      if remainingNeeded ≤ ((results2.filter (fun r => r.2)).length : Int) then results2
      else testLoop cfg env cache csize remainingNeeded fuel ((p :: rest).drop csize) results2

/-- Model of `testProxiesConcurrently(proxies)` (lines 288–326). -/
def testProxiesConcurrently (cfg : Config) (env : Env) (s : PoolState)
    (proxies : List String) : List (String × Bool) :=
  let remainingNeeded := cfg.targetCount - (s.availableProxies.length : Int)
  let csize := (min (cfg.concurrentRequests * 2) 20).toNat
  testLoop cfg env s.proxyCache csize remainingNeeded proxies.length proxies []

/-- The collection loop of `tryUsingCachedProxies` (lines 178–186): gather
keys of fresh, valid cache entries, stopping once `needed` are collected
(the count test runs after each push, so a non-positive `needed` still lets
the first fresh valid key through). -/
def collectCached (now ttl : Int) (needed : Int) :
    List (String × CacheEntry) → List String → List String
  | [], acc => acc
  | (k, e) :: rest, acc =>
    if now - e.timestamp < ttl ∧ e.valid then
      let acc2 := acc ++ [k]
      if needed ≤ (acc2.length : Int) then acc2
      else collectCached now ttl needed rest acc2
    else collectCached now ttl needed rest acc

/-- Model of `tryUsingCachedProxies(neededProxies)` (lines 173–195): re-test the
collected cached keys and admit the successes. -/
def tryUsingCachedProxies (cfg : Config) (env : Env) (needed : Int)
    (s : PoolState) : PoolState :=
  let cachedProxies := collectCached env.now cfg.cacheExpiry needed s.proxyCache []
  if 0 < cachedProxies.length then
    addValidProxies cfg env (testProxiesConcurrently cfg env s cachedProxies) s
  else s

/-- How one run of the acquisition loop ended: normally (target reached,
attempts exhausted), or by an exception escaping the loop body (the
`TypeError` raised when the provider's return value is `undefined`). -/
inductive LoopExit where
  | normal
  | threw
deriving DecidableEq

/-- The acquisition `while` loop of `refillProxies` (lines 114–155), compiled
with explicit fuel standing for `maxRefillAttempts - attempts`: returns the
final state, the attempt counter, and how the loop ended.  At the moment the
`proxies.length` read throws, the state already mutated in earlier
iterations is kept (JS mutations are not rolled back). -/
def refillLoop (cfg : Config) (env : Env) :
    Nat → Nat → PoolState → PoolState × Nat × LoopExit
  | 0, attempts, s => (s, attempts, .normal)
  | fuel + 1, attempts, s =>
    if (s.availableProxies.length : Int) < cfg.targetCount then
      let attempts2 := attempts + 1
      let remainingNeeded := cfg.targetCount - (s.availableProxies.length : Int)
      let batchSizeNeeded := max cfg.batchSize (remainingNeeded * 2)
      match getProxiesFromProvider (env.provider attempts2 batchSizeNeeded) with
      | .undef => (s, attempts2, .threw)
      | .list proxies =>
        if proxies.length = 0 then refillLoop cfg env fuel attempts2 s
        else
          let newProxies := filterExistingProxies s.availableProxies proxies
          if newProxies.length = 0 then refillLoop cfg env fuel attempts2 s
          else
            let s2 := addValidProxies cfg env
              (testProxiesConcurrently cfg env s newProxies) s
            if cfg.targetCount ≤ (s2.availableProxies.length : Int) then
              (s2, attempts2, .normal)
            else refillLoop cfg env fuel attempts2 s2
    else (s, attempts, .normal)

/-- Model of `refillProxies()` (lines 96–167): the single-flight entry guard, the
cache-first pass, the bounded acquisition loop inside `try/catch`, and the
unconditional `finally` clearing `isRefilling`. -/
def refillProxies (cfg : Config) (env : Env) (s : PoolState) : PoolState :=
  if s.isRefilling then s
  else
    let s1 : PoolState := { s with isRefilling := true }
    let neededProxies := cfg.targetCount - (s1.availableProxies.length : Int)
    let s2 :=
      if cfg.useCache ∧ 0 < s1.proxyCache.length then
        tryUsingCachedProxies cfg env neededProxies s1
      else s1
    let s3 := (refillLoop cfg env cfg.maxRefillAttempts.toNat 0 s2).1
    { s3 with isRefilling := false }

/-- Configuration with target pool size 1 and cache TTL 100, used in concrete
runs of the refill cycle. -/
def cfgT1 : Config := mkConfig { targetCount := some 1, cacheExpiry := some 100 }

/-- Oracle for concrete refill runs: clock at 0, every provider request
fails in transport, every probe reports invalid. -/
def envT1 : Env := ⟨0, fun _ _ => .transportError, fun _ => false⟩

/-- A state whose pool already holds exactly one proxy (the target of
`cfgT1`) and whose cache holds one fresh valid entry not in the pool. -/
def sT1 : PoolState :=
  ⟨[⟨"9.9.9.9", some "1", "http", "http://9.9.9.9:1", 0⟩], 0, false,
   [("1.1.1.1:8080", ⟨true, 0⟩)]⟩

/-! ### Concrete instances and operation sequences used in witnesses -/

/-- Oracle with the clock at 200 and all probes succeeding, used to witness
the cache-expiry theorem past the TTL. -/
def envLate : Env := ⟨200, fun _ _ => .transportError, fun _ => true⟩

/-- A two-member pool with the cursor at 0, used to witness round robin. -/
def sRR : PoolState :=
  ⟨[⟨"1.1.1.1", some "80", "http", "http://1.1.1.1:80", 0⟩,
    ⟨"2.2.2.2", some "81", "http", "http://2.2.2.2:81", 0⟩], 0, false, []⟩

/-- Uniqueness invariant of the pool: no two members share `(host, port)`. -/
def poolUnique (l : List Proxy) : Prop :=
  l.Pairwise (fun a b => ¬(a.ip = b.ip ∧ a.port = b.port))

/-- One mutation of the pool subsystem: a refill cycle, a direct admission
batch (`addValidProxies`), or a removal. -/
inductive PoolOp where
  | refill (env : Env)
  | addBatch (env : Env) (results : List (String × Bool))
  | remove (now : Int) (ip : String) (port : String)

/-- Apply one pool mutation. -/
def applyOp (cfg : Config) : PoolOp → PoolState → PoolState
  | .refill env, s => refillProxies cfg env s
  | .addBatch env results, s => addValidProxies cfg env results s
  | .remove now ip port, s => (removeProxy cfg now ip port s).2

/-- Apply a sequence of pool mutations in order. -/
def applyOps (cfg : Config) (ops : List PoolOp) (s : PoolState) : PoolState :=
  ops.foldl (fun t op => applyOp cfg op t) s

/-- A concrete mutation sequence: one admission batch, one removal, one
refill cycle. -/
def opsW : List PoolOp :=
  [.addBatch envT1 [("3.3.3.3:82", true)], .remove 0 "1.1.1.1" "80", .refill envT1]

/-! ### Helper lemmas -/

/-- A numeric option defaulted through `||` is never zero when its default
is nonzero. -/
theorem jsOrNum_ne_zero (o : Option Int) (d : Int) (hd : d ≠ 0) :
    jsOrNum o d ≠ 0 := by
  unfold jsOrNum
  cases o with
  | none => exact hd
  | some n => by_cases hn : n = 0 <;> simp [hn, hd]

/-- A numeric option supplied as the falsy value `0` yields the default. -/
theorem jsOrNum_zero (d : Int) : jsOrNum (some 0) d = d := by
  simp [jsOrNum]

/-! ### Claim theorems: constructor (C10) -/

/-- Claim C10: for every configuration option other than the cache enable
flag, the constructor replaces a falsy supplied value with the documented
default — `targetCount: 0` yields 20, `retryDelay: 0` yields 1000, an empty
`targetUrl` or `proxyProtocol` yields the default string — whereas
`useCache: false` is honored as given; consequently no numeric option of
the resulting configuration is ever zero. -/
theorem mkConfig_falsy_defaults :
    (∀ o : Options,
      (mkConfig { o with targetCount := some 0 }).targetCount = 20 ∧
      (mkConfig { o with batchSize := some 0 }).batchSize = 20 ∧
      (mkConfig { o with testTimeout := some 0 }).testTimeout = 5000 ∧
      (mkConfig { o with requestTimeout := some 0 }).requestTimeout = 10000 ∧
      (mkConfig { o with targetUrl := some "" }).targetUrl = "https://www.notion.so" ∧
      (mkConfig { o with concurrentRequests := some 0 }).concurrentRequests = 10 ∧
      (mkConfig { o with minThreshold := some 0 }).minThreshold = 5 ∧
      (mkConfig { o with checkInterval := some 0 }).checkInterval = 30000 ∧
      (mkConfig { o with proxyProtocol := some "" }).proxyProtocol = "http" ∧
      (mkConfig { o with maxRefillAttempts := some 0 }).maxRefillAttempts = 20 ∧
      (mkConfig { o with retryDelay := some 0 }).retryDelay = 1000 ∧
      (mkConfig { o with cacheExpiry := some 0 }).cacheExpiry = 3600000 ∧
      (mkConfig { o with useCache := some false }).useCache = false) ∧
    (∀ o : Options,
      (mkConfig o).targetCount ≠ 0 ∧ (mkConfig o).batchSize ≠ 0 ∧
      (mkConfig o).testTimeout ≠ 0 ∧ (mkConfig o).requestTimeout ≠ 0 ∧
      (mkConfig o).concurrentRequests ≠ 0 ∧ (mkConfig o).minThreshold ≠ 0 ∧
      (mkConfig o).checkInterval ≠ 0 ∧ (mkConfig o).maxRefillAttempts ≠ 0 ∧
      (mkConfig o).retryDelay ≠ 0 ∧ (mkConfig o).cacheExpiry ≠ 0) := by
  constructor
  · intro o
    refine ⟨?_, ?_, ?_, ?_, ?_, ?_, ?_, ?_, ?_, ?_, ?_, ?_, ?_⟩ <;>
      simp [mkConfig, jsOrNum, jsOrStr]
  · intro o
    refine ⟨?_, ?_, ?_, ?_, ?_, ?_, ?_, ?_, ?_, ?_⟩ <;>
      exact jsOrNum_ne_zero _ _ (by decide)

/-! ### Claim theorems: provider client (C7) -/

/-- Claim C7 (code behaviour at the failing input): a transport failure, a
falsy response body, a non-success `code`, or a missing `data` object all
degrade to the empty list without raising; but a success-coded body whose
`data` object lacks the `proxies` array makes `getProxiesFromProvider`
return `undefined` — not an empty sequence — contradicting its own JSDoc
return type `Promise<Array<string>>`. -/
theorem getProxiesFromProvider_degrade :
    getProxiesFromProvider (.ok (some ⟨some 200, some ⟨some 5, none⟩⟩)) = .undef ∧
    FetchResult.undef ≠ .list [] ∧
    getProxiesFromProvider .transportError = .list [] ∧
    getProxiesFromProvider (.ok none) = .list [] ∧
    getProxiesFromProvider (.ok (some ⟨some 500, some ⟨some 1, some ["1.2.3.4:80"]⟩⟩))
      = .list [] ∧
    getProxiesFromProvider (.ok (some ⟨none, some ⟨none, some ["1.2.3.4:80"]⟩⟩))
      = .list [] ∧
    getProxiesFromProvider (.ok (some ⟨some 200, none⟩)) = .list [] := by
  decide

/-! ### Claim theorems: validator verdict (C5) -/

/-- Claim C5, counterexample: a 200-status response whose textual body is
`"NOTION"` contains the marker case-insensitively, yet `testProxy` reports
it invalid — the code matches only the exact casings `'notion'` and
`'Notion'`, not case-insensitive containment. -/
theorem testProxy_marker_case_cex :
    testProxy (.resp 200 (.str "NOTION")) = false ∧
    specVerdictRule (.resp 200 (.str "NOTION")) = true := by
  decide

/-- Claim C5 (amended): `testProxy` reports valid iff the response status is
exactly 200 and the response body is textual and contains `"notion"` or
`"Notion"` as an exact substring; any transport error, timeout, or
non-textual body yields false. -/
theorem testProxy_verdict_rule (o : ProbeOutcome) :
    testProxy o = amendedVerdictRule o := by
  cases o with
  | err => rfl
  | resp status body =>
    cases body with
    | str s =>
      simp only [testProxy, amendedVerdictRule]
      by_cases hs : s = ""
      · subst hs
        have h1 : strContainsSub "" "notion" = false := by decide
        have h2 : strContainsSub "" "Notion" = false := by decide
        simp [h1, h2]
      · have : (s == "") = false := by simp [hs]
        simp [this]
    | nonTextTruthy => simp [testProxy, amendedVerdictRule]
    | falsyNonString => simp [testProxy, amendedVerdictRule]

/-! ### Claim theorems: cache expiry (C4) -/

/-- Claim C4, counterexample: at the exact boundary `now - T = ttl` the
claim demands removal, but `cleanupCache` compares strictly
(`now - timestamp > cacheExpiry`) and keeps the entry. -/
theorem cleanupCache_boundary_cex :
    cfgT1.useCache = true ∧
    cfgT1.cacheExpiry ≤ (100 : Int) - 0 ∧
    cleanupCache cfgT1 100 [("1.2.3.4:80", ⟨true, 0⟩)]
      = [("1.2.3.4:80", ⟨true, 0⟩)] := by
  decide

/-- Claim C4 (amended): with the cache enabled, a lookup performed at time
`now` with `now - T ≥ ttl` falls back to probing (the cached verdict is not
used), and a sweep removes exactly the entries with `now - T > ttl`
(strictly): an entry survives the sweep iff `now - T ≤ ttl`. -/
theorem cache_expiry_lookup_and_sweep (cfg : Config) (env : Env)
    (cache : List (String × CacheEntry)) (now : Int) (proxy k : String)
    (e entry : CacheEntry) (hc : cfg.useCache = true) :
    (mapGet cache proxy = some e → cfg.cacheExpiry ≤ env.now - e.timestamp →
      cacheConsult cfg env cache proxy = env.probe proxy) ∧
    ((k, entry) ∈ cleanupCache cfg now cache ↔
      (k, entry) ∈ cache ∧ now - entry.timestamp ≤ cfg.cacheExpiry) := by
  constructor
  · intro hget hstale
    unfold cacheConsult
    rw [hc, if_pos rfl, hget]
    exact if_neg (by omega)
  · unfold cleanupCache
    rw [hc, if_pos rfl]
    simp only [List.mem_filter, Bool.not_eq_true', decide_eq_false_iff_not, not_lt]

/-- Witness for the amended cache-expiry theorem at a concrete stale entry:
TTL 100, entry recorded at 0, lookup at 200, sweep at 150. -/
theorem cache_expiry_witness :
    cacheConsult cfgT1 envLate [("1.2.3.4:80", ⟨true, 0⟩)] "1.2.3.4:80"
      = envLate.probe "1.2.3.4:80" ∧
    (("1.2.3.4:80", (⟨true, 0⟩ : CacheEntry))
        ∈ cleanupCache cfgT1 150 [("1.2.3.4:80", ⟨true, 0⟩)] ↔
      ("1.2.3.4:80", (⟨true, 0⟩ : CacheEntry))
        ∈ [("1.2.3.4:80", (⟨true, 0⟩ : CacheEntry))] ∧
      (150 : Int) - (0 : Int) ≤ cfgT1.cacheExpiry) := by
  exact ⟨(cache_expiry_lookup_and_sweep cfgT1 envLate [("1.2.3.4:80", ⟨true, 0⟩)] 150
            "1.2.3.4:80" "1.2.3.4:80" ⟨true, 0⟩ ⟨true, 0⟩ rfl).1 (by decide) (by decide),
         (cache_expiry_lookup_and_sweep cfgT1 envLate [("1.2.3.4:80", ⟨true, 0⟩)] 150
            "1.2.3.4:80" "1.2.3.4:80" ⟨true, 0⟩ ⟨true, 0⟩ rfl).2⟩

/-! ### Claim theorems: round robin (C3) -/

/-- Reading a list at all positions `0, ..., length-1` gives back the list. -/
theorem range_map_get (l : List Proxy) :
    (List.range l.length).map l.get? = l.map some := by
  induction l with
  | nil => rfl
  | cons a t ih =>
    simp only [List.length_cons, List.range_succ_eq_map, List.map_cons,
      List.get?_cons_zero, List.map_map]
    refine congrArg (some a :: ·) ?_
    calc (List.range t.length).map ((a :: t).get? ∘ Nat.succ)
        = (List.range t.length).map t.get? := by
          exact List.map_congr_left (fun j _ => rfl)
      _ = t.map some := ih

/-- Closed form for `k` successive `getProxy` calls from a valid cursor:
outputs are the pool read at cursor positions advancing modulo the length,
and the final cursor is the start advanced by `k` modulo the length. -/
theorem runGetProxy_formula (l : List Proxy) (b : Bool)
    (c : List (String × CacheEntry)) :
    ∀ (k i : Nat), i < l.length →
      runGetProxy k ⟨l, i, b, c⟩ =
        ((List.range k).map (fun j => l.get? ((i + j) % l.length)),
         ⟨l, (i + k) % l.length, b, c⟩) := by
  intro k
  induction k with
  | zero =>
    intro i hi
    simp [runGetProxy, Nat.mod_eq_of_lt hi]
  | succ k ih =>
    intro i hi
    have hlen : l.length ≠ 0 := by omega
    have hpos : 0 < l.length := by omega
    have hstep : (i + 1) % l.length < l.length := Nat.mod_lt _ hpos
    simp only [runGetProxy, getProxy, hlen, if_false, ih ((i + 1) % l.length) hstep]
    refine Prod.ext ?_ ?_
    · simp only [List.range_succ_eq_map, List.map_cons, List.map_map]
      refine congrArg₂ (· :: ·) ?_ ?_
      · rw [Nat.add_zero, Nat.mod_eq_of_lt hi]
      · refine List.map_congr_left (fun j _ => ?_)
        simp only [Function.comp_apply]
        rw [Nat.mod_add_mod, show i + 1 + j = i + (j + 1) from by omega]
    · simp only
      rw [Nat.mod_add_mod, show i + 1 + k = i + (k + 1) from by omega]

/-- Claim C3: on an empty pool `getProxy()` returns `null`; on a non-empty
pool of size `N` with the cursor at its initial position, `N` successive
`getProxy()` calls return every pool member exactly once in insertion order,
restore the state, and the `(N+1)`-th call returns the first member again. -/
theorem getProxy_round_robin (s : PoolState) :
    (s.availableProxies = [] → (getProxy s).1 = none) ∧
    (s.currentIndex = 0 → s.availableProxies ≠ [] →
      (runGetProxy s.availableProxies.length s).1 = s.availableProxies.map some ∧
      (runGetProxy s.availableProxies.length s).2 = s ∧
      (runGetProxy (s.availableProxies.length + 1) s).1
        = s.availableProxies.map some ++ [s.availableProxies.get? 0]) := by
  obtain ⟨l, i, b, c⟩ := s
  constructor
  · intro hl
    simp only at hl
    subst hl
    rfl
  · intro hi hne
    simp only at hi
    subst hi
    have hpos : 0 < l.length := List.length_pos.mpr hne
    have hform := runGetProxy_formula l b c l.length 0 hpos
    have hform1 := runGetProxy_formula l b c (l.length + 1) 0 hpos
    refine ⟨?_, ?_, ?_⟩
    · rw [hform]
      simp only
      calc (List.range l.length).map (fun j => l.get? ((0 + j) % l.length))
          = (List.range l.length).map l.get? := by
            refine List.map_congr_left (fun j hj => ?_)
            rw [Nat.zero_add, Nat.mod_eq_of_lt (List.mem_range.mp hj)]
        _ = l.map some := range_map_get l
    · rw [hform]
      simp [Nat.mod_self]
    · rw [hform1]
      simp only [List.range_succ, List.map_append, List.map_cons, List.map_nil]
      refine congrArg₂ (· ++ ·) ?_ ?_
      · calc (List.range l.length).map (fun j => l.get? ((0 + j) % l.length))
            = (List.range l.length).map l.get? := by
              refine List.map_congr_left (fun j hj => ?_)
              rw [Nat.zero_add, Nat.mod_eq_of_lt (List.mem_range.mp hj)]
          _ = l.map some := range_map_get l
      · rw [Nat.zero_add, Nat.mod_self]

/-- Witness for round robin on the concrete two-member pool `sRR`. -/
theorem getProxy_round_robin_witness :
    (runGetProxy sRR.availableProxies.length sRR).1 = sRR.availableProxies.map some ∧
    (runGetProxy sRR.availableProxies.length sRR).2 = sRR ∧
    (runGetProxy (sRR.availableProxies.length + 1) sRR).1
      = sRR.availableProxies.map some ++ [sRR.availableProxies.get? 0] :=
  (getProxy_round_robin sRR).2 rfl (by decide)

/-! ### Claim theorems: removal (C6) -/

/-- On a duplicate-free pool, filtering out one `(ip, port)` that some
member carries removes exactly that member. -/
theorem filter_out_member_length {l : List Proxy} {ip port : String}
    (hu : poolUnique l) {m : Proxy} (hm : m ∈ l)
    (hmi : m.ip = ip) (hmp : m.port = some port) :
    (l.filter (fun p => !(p.ip == ip && p.port == some port))).length
      = l.length - 1 := by
  induction l with
  | nil => cases hm
  | cons a t ih =>
    rw [poolUnique, List.pairwise_cons] at hu
    rw [List.filter_cons]
    rcases List.mem_cons.mp hm with rfl | hmt
    · have hcond : (!(m.ip == ip && m.port == some port)) = false := by
        simp [hmi, hmp]
      rw [hcond]
      have hfilt : t.filter (fun p => !(p.ip == ip && p.port == some port)) = t := by
        refine List.filter_eq_self.mpr (fun b hb => ?_)
        have hnb : ¬(b.ip = ip ∧ b.port = some port) := by
          intro hcon
          exact hu.1 b hb ⟨hmi.trans hcon.1.symm, hmp.trans hcon.2.symm⟩
        rcases not_and_or.mp hnb with h | h <;> simp [h]
      rw [if_neg (by simp), hfilt]
      simp
    · have hcond : (!(a.ip == ip && a.port == some port)) = true := by
        have hna : ¬(a.ip = ip ∧ a.port = some port) := by
          intro hcon
          exact hu.1 m hmt ⟨hcon.1.trans hmi.symm, hcon.2.trans hmp.symm⟩
        rcases not_and_or.mp hna with h | h <;> simp [h]
      rw [hcond]
      have hlen : 0 < t.length := List.length_pos.mpr (List.ne_nil_of_mem hmt)
      simp only [if_true, List.length_cons, ih hu.2 hmt]
      omega

/-- Claim C6: on a duplicate-free pool, `removeProxy` of an existing member
returns true, shrinks the pool by exactly one, and leaves the cursor inside
`[0, newSize)` whenever the pool stays non-empty; on an absent `(ip, port)`
it returns false and leaves the pool contents unchanged. -/
theorem removeProxy_correct (cfg : Config) (now : Int) (ip port : String)
    (s : PoolState) (hu : poolUnique s.availableProxies) :
    ((∃ m ∈ s.availableProxies, m.ip = ip ∧ m.port = some port) →
      (removeProxy cfg now ip port s).1 = true ∧
      (removeProxy cfg now ip port s).2.availableProxies.length
        = s.availableProxies.length - 1 ∧
      ((removeProxy cfg now ip port s).2.availableProxies ≠ [] →
        (removeProxy cfg now ip port s).2.currentIndex
          < (removeProxy cfg now ip port s).2.availableProxies.length)) ∧
    ((∀ m ∈ s.availableProxies, ¬(m.ip = ip ∧ m.port = some port)) →
      (removeProxy cfg now ip port s).1 = false ∧
      (removeProxy cfg now ip port s).2.availableProxies = s.availableProxies) := by
  constructor
  · rintro ⟨m, hm, hmi, hmp⟩
    have hlen := filter_out_member_length hu hm hmi hmp
    have hpos : 0 < s.availableProxies.length :=
      List.length_pos.mpr (List.ne_nil_of_mem hm)
    unfold removeProxy
    simp only
    refine ⟨?_, hlen, ?_⟩
    · simp only [decide_eq_true_eq, hlen]
      omega
    · intro hne
      have hp2 : 0 < (s.availableProxies.filter
          (fun p => !(p.ip == ip && p.port == some port))).length :=
        List.length_pos.mpr hne
      split_ifs with h
      · exact hp2
      · rcases not_and_or.mp h with h1 | h2
        · omega
        · exact absurd hp2 h2
  · intro hno
    have hfilt : s.availableProxies.filter
        (fun p => !(p.ip == ip && p.port == some port)) = s.availableProxies := by
      refine List.filter_eq_self.mpr (fun b hb => ?_)
      rcases not_and_or.mp (hno b hb) with h | h <;> simp [h]
    unfold removeProxy
    simp only [hfilt]
    exact ⟨by simp, trivial⟩

/-- Witness for `removeProxy_correct` on the concrete pool `sRR`, removing
its first member. -/
theorem removeProxy_correct_witness :
    (removeProxy defaultConfig 0 "1.1.1.1" "80" sRR).1 = true ∧
    (removeProxy defaultConfig 0 "1.1.1.1" "80" sRR).2.availableProxies.length
      = sRR.availableProxies.length - 1 ∧
    ((removeProxy defaultConfig 0 "1.1.1.1" "80" sRR).2.availableProxies ≠ [] →
      (removeProxy defaultConfig 0 "1.1.1.1" "80" sRR).2.currentIndex
        < (removeProxy defaultConfig 0 "1.1.1.1" "80" sRR).2.availableProxies.length) :=
  (removeProxy_correct defaultConfig 0 "1.1.1.1" "80" sRR
      (by simp [poolUnique, sRR])).1
    ⟨⟨"1.1.1.1", some "80", "http", "http://1.1.1.1:80", 0⟩, by decide, rfl, rfl⟩

/-! ### Claim theorems: single-flight guard and idle transition (C1) -/

/-- Claim C1: a `refillProxies` call while the orchestrator is already
refilling returns the state untouched (pool, cache, cursor and the local
attempt counter are never created or mutated), and a refill cycle entered
from idle — whichever way its loop ends, target reached, attempts
exhausted, or an exception escaping the loop body — always finishes with
`isRefilling = false`. -/
theorem refillProxies_single_flight_and_idle (cfg : Config) (env : Env)
    (s : PoolState) :
    (s.isRefilling = true → refillProxies cfg env s = s) ∧
    (s.isRefilling = false → (refillProxies cfg env s).isRefilling = false) := by
  constructor
  · intro h
    unfold refillProxies
    rw [if_pos h]
  · intro h
    unfold refillProxies
    rw [if_neg (by simp [h])]

/-- Witness for the single-flight guard and the idle transition: a concrete
already-refilling state is returned unchanged, and a concrete idle state
ends idle after a full cycle against an always-failing provider. -/
theorem refillProxies_single_flight_witness :
    refillProxies defaultConfig envT1 { initialState with isRefilling := true }
      = { initialState with isRefilling := true } ∧
    (refillProxies defaultConfig envT1 initialState).isRefilling = false :=
  ⟨(refillProxies_single_flight_and_idle defaultConfig envT1
      { initialState with isRefilling := true }).1 rfl,
   (refillProxies_single_flight_and_idle defaultConfig envT1 initialState).2 rfl⟩

/-! ### Claim theorems: degrade-and-stop (C8) -/

/-- When every provider fetch degrades to the empty list and the pool is
below target, the acquisition loop burns all its fuel, one attempt per unit,
without touching the state. -/
theorem refillLoop_empty_provider (cfg : Config) (env : Env)
    (hp : ∀ k c, getProxiesFromProvider (env.provider k c) = .list []) :
    ∀ (fuel attempts : Nat) (s : PoolState),
      (s.availableProxies.length : Int) < cfg.targetCount →
      refillLoop cfg env fuel attempts s = (s, attempts + fuel, .normal) := by
  intro fuel
  induction fuel with
  | zero => intro attempts s _; rfl
  | succ fuel ih =>
    intro attempts s hlt
    unfold refillLoop
    rw [if_pos hlt]
    simp only [hp, List.length_nil, if_pos rfl]
    rw [ih (attempts + 1) s hlt,
      show attempts + 1 + fuel = attempts + (fuel + 1) from by omega]
    simp

/-- Claim C8: starting idle and below target, with every provider call
yielding an empty batch and the cache pass contributing no candidates, a
refill cycle performs exactly `maxRefillAttempts` acquisition attempts and
returns to idle with the pool unchanged. -/
theorem refill_empty_provider_exhausts (cfg : Config) (env : Env) (s : PoolState)
    (h0 : s.isRefilling = false)
    (hlt : (s.availableProxies.length : Int) < cfg.targetCount)
    (hmax : 0 ≤ cfg.maxRefillAttempts)
    (hp : ∀ k c, getProxiesFromProvider (env.provider k c) = .list [])
    (hcache : cfg.useCache = false ∨
      collectCached env.now cfg.cacheExpiry
        (cfg.targetCount - (s.availableProxies.length : Int)) s.proxyCache [] = []) :
    (refillProxies cfg env s).availableProxies = s.availableProxies ∧
    (refillProxies cfg env s).isRefilling = false ∧
    ((refillLoop cfg env cfg.maxRefillAttempts.toNat 0
        { s with isRefilling := true }).2.1 : Int) = cfg.maxRefillAttempts := by
  have hloop := refillLoop_empty_provider cfg env hp cfg.maxRefillAttempts.toNat 0
    { s with isRefilling := true } hlt
  have hmain : refillProxies cfg env s = { s with isRefilling := false } := by
    unfold refillProxies
    rw [if_neg (by simp [h0])]
    simp only
    have hs2 : (if cfg.useCache = true ∧ 0 < s.proxyCache.length then
        tryUsingCachedProxies cfg env
          (cfg.targetCount - (s.availableProxies.length : Int))
          { s with isRefilling := true }
      else ({ s with isRefilling := true } : PoolState))
        = { s with isRefilling := true } := by
      split_ifs with hg
      · rcases hcache with hc | hc
        · exact absurd hg.1 (by simp [hc])
        · unfold tryUsingCachedProxies
          simp only
          rw [show ({ s with isRefilling := true } : PoolState).proxyCache = s.proxyCache
            from rfl, show ({ s with isRefilling := true } : PoolState).availableProxies
            = s.availableProxies from rfl, hc]
          simp
      · rfl
    rw [hs2, hloop]
  refine ⟨by rw [hmain], by rw [hmain], ?_⟩
  rw [hloop]
  simp [Int.toNat_of_nonneg hmax]

/-- Witness for degrade-and-stop: the default configuration, an empty pool,
and a provider failing in transport on every call. -/
theorem refill_empty_provider_witness :
    (refillProxies defaultConfig envT1 initialState).availableProxies
      = initialState.availableProxies ∧
    (refillProxies defaultConfig envT1 initialState).isRefilling = false ∧
    ((refillLoop defaultConfig envT1 defaultConfig.maxRefillAttempts.toNat 0
        { initialState with isRefilling := true }).2.1 : Int)
      = defaultConfig.maxRefillAttempts :=
  refill_empty_provider_exhausts defaultConfig envT1 initialState rfl (by decide)
    (by decide) (fun _ _ => rfl) (.inr rfl)

/-! ### Claim theorems: bounded pool size (C9) -/

/-- Admission via `addValidProxies` from a pool strictly below the target
never pushes the pool past the target: the loop breaks at the push that
reaches it. -/
theorem addValidProxies_length_le (cfg : Config) (env : Env) :
    ∀ (results : List (String × Bool)) (s : PoolState),
      (s.availableProxies.length : Int) < cfg.targetCount →
      ((addValidProxies cfg env results s).availableProxies.length : Int)
        ≤ cfg.targetCount := by
  intro results
  induction results with
  | nil =>
    intro s h
    exact le_of_lt h
  | cons r rest ih =>
    intro s h
    obtain ⟨proxy, result⟩ := r
    cases result with
    | false =>
      rw [addValidProxies]
      rw [if_neg (by simp)]
      split_ifs with hc
      · exact ih _ h
      · exact ih _ h
    | true =>
      rw [addValidProxies]
      rw [if_pos rfl]
      by_cases hdup : (s.availableProxies.any fun p =>
          p.ip == (splitProxy proxy).1 && p.port == (splitProxy proxy).2) = true
      · rw [if_pos hdup]
        exact ih _ h
      · rw [if_neg hdup]
        have key : ∀ s2 : PoolState,
            s2.availableProxies.length = s.availableProxies.length + 1 →
            (((if cfg.targetCount ≤ (s2.availableProxies.length : Int) then s2
              else addValidProxies cfg env rest s2).availableProxies.length : Int)
              ≤ cfg.targetCount) := by
          intro s2 hlen2
          split_ifs with htgt
          · omega
          · exact ih s2 (by omega)
        exact key _ (by simp)

/-- The acquisition loop preserves the pool-size bound. -/
theorem refillLoop_length_le (cfg : Config) (env : Env) :
    ∀ (fuel attempts : Nat) (s : PoolState),
      (s.availableProxies.length : Int) ≤ cfg.targetCount →
      ((refillLoop cfg env fuel attempts s).1.availableProxies.length : Int)
        ≤ cfg.targetCount := by
  intro fuel
  induction fuel with
  | zero => intro attempts s h; exact h
  | succ fuel ih =>
    intro attempts s h
    rw [refillLoop]
    split_ifs with hlt
    · simp only
      split
      · exact h
      · split_ifs with h1 h2 h3
        · exact ih _ _ h
        · exact ih _ _ h
        · exact addValidProxies_length_le cfg env _ _ hlt
        · exact ih _ _ (addValidProxies_length_le cfg env _ _ hlt)
    · exact h

/-- Claim C9 (amended): a refill cycle that starts with the pool strictly
below the configured target never leaves it above the target. -/
theorem refill_pool_bounded (cfg : Config) (env : Env) (s : PoolState)
    (h : (s.availableProxies.length : Int) < cfg.targetCount) :
    ((refillProxies cfg env s).availableProxies.length : Int)
      ≤ cfg.targetCount := by
  unfold refillProxies
  split_ifs with href
  · exact le_of_lt h
  · simp only
    refine le_trans (le_of_eq ?_) (refillLoop_length_le cfg env
      cfg.maxRefillAttempts.toNat 0
      (if cfg.useCache = true ∧ 0 < s.proxyCache.length then
        tryUsingCachedProxies cfg env
          (cfg.targetCount - (s.availableProxies.length : Int))
          { s with isRefilling := true }
      else { s with isRefilling := true }) ?_)
    · rfl
    · split_ifs with hg
      · unfold tryUsingCachedProxies
        simp only
        split_ifs with hn
        · exact addValidProxies_length_le cfg env _ _ h
        · exact le_of_lt h
      · exact le_of_lt h

/-- Claim C9, counterexample: with target size 1, a pool already holding
exactly the target (1 member, so "at most the target"), and a fresh valid
cache entry for an address not in the pool, the cache-first pass of a refill
cycle still admits that address (the collection loop's count test runs only
after a first key is pushed), completing the cycle with 2 > 1 members. -/
theorem refill_pool_bounded_cex :
    (sT1.availableProxies.length : Int) ≤ cfgT1.targetCount ∧
    sT1.isRefilling = false ∧
    cfgT1.targetCount
      < ((refillProxies cfgT1 envT1 sT1).availableProxies.length : Int) := by
  decide

/-- Witness for the amended bounded-size theorem: an empty pool against an
always-failing provider stays within the default target. -/
theorem refill_pool_bounded_witness :
    ((refillProxies defaultConfig envT1 initialState).availableProxies.length : Int)
      ≤ defaultConfig.targetCount :=
  refill_pool_bounded defaultConfig envT1 initialState (by decide)

/-! ### Claim theorems: uniqueness (C2) -/

/-- Admission preserves the `(host, port)` uniqueness invariant: a candidate
is pushed only after the linear scan finds no member with its pair. -/
theorem addValidProxies_unique (cfg : Config) (env : Env) :
    ∀ (results : List (String × Bool)) (s : PoolState),
      poolUnique s.availableProxies →
      poolUnique (addValidProxies cfg env results s).availableProxies := by
  intro results
  induction results with
  | nil =>
    intro s hu
    exact hu
  | cons r rest ih =>
    intro s hu
    obtain ⟨proxy, result⟩ := r
    cases result with
    | false =>
      rw [addValidProxies]
      rw [if_neg (by simp)]
      split_ifs with hc
      · exact ih _ hu
      · exact ih _ hu
    | true =>
      rw [addValidProxies]
      rw [if_pos rfl]
      by_cases hdup : (s.availableProxies.any fun p =>
          p.ip == (splitProxy proxy).1 && p.port == (splitProxy proxy).2) = true
      · rw [if_pos hdup]
        exact ih _ hu
      · rw [if_neg hdup]
        have hpush : poolUnique (s.availableProxies ++
            [(⟨(splitProxy proxy).1, (splitProxy proxy).2, cfg.proxyProtocol,
              cfg.proxyProtocol ++ "://" ++ proxy, env.now⟩ : Proxy)]) := by
          rw [poolUnique, List.pairwise_append]
          refine ⟨hu, List.pairwise_singleton _ _, ?_⟩
          intro a ha b hb
          simp only [List.mem_singleton] at hb
          subst hb
          intro hcon
          exact hdup (List.any_eq_true.mpr
            ⟨a, ha, by simp [hcon.1, hcon.2]⟩)
        have key : ∀ s2 : PoolState, poolUnique s2.availableProxies →
            poolUnique ((if cfg.targetCount ≤ (s2.availableProxies.length : Int)
              then s2 else addValidProxies cfg env rest s2).availableProxies) := by
          intro s2 hu2
          split_ifs with htgt
          · exact hu2
          · exact ih s2 hu2
        exact key _ hpush

/-- The cache-first pass preserves uniqueness. -/
theorem tryUsingCachedProxies_unique (cfg : Config) (env : Env) (needed : Int)
    (s : PoolState) (hu : poolUnique s.availableProxies) :
    poolUnique (tryUsingCachedProxies cfg env needed s).availableProxies := by
  unfold tryUsingCachedProxies
  simp only
  split_ifs with hn
  · exact addValidProxies_unique cfg env _ _ hu
  · exact hu

/-- The acquisition loop preserves uniqueness. -/
theorem refillLoop_unique (cfg : Config) (env : Env) :
    ∀ (fuel attempts : Nat) (s : PoolState),
      poolUnique s.availableProxies →
      poolUnique ((refillLoop cfg env fuel attempts s).1.availableProxies) := by
  intro fuel
  induction fuel with
  | zero => intro attempts s hu; exact hu
  | succ fuel ih =>
    intro attempts s hu
    rw [refillLoop]
    split_ifs with hlt
    · simp only
      split
      · exact hu
      · split_ifs with h1 h2 h3
        · exact ih _ _ hu
        · exact ih _ _ hu
        · exact addValidProxies_unique cfg env _ _ hu
        · exact ih _ _ (addValidProxies_unique cfg env _ _ hu)
    · exact hu

/-- A full refill cycle preserves uniqueness. -/
theorem refillProxies_unique (cfg : Config) (env : Env) (s : PoolState)
    (hu : poolUnique s.availableProxies) :
    poolUnique (refillProxies cfg env s).availableProxies := by
  unfold refillProxies
  split_ifs with href
  · exact hu
  · simp only
    refine refillLoop_unique cfg env cfg.maxRefillAttempts.toNat 0
      (if cfg.useCache = true ∧ 0 < s.proxyCache.length then
        tryUsingCachedProxies cfg env
          (cfg.targetCount - (s.availableProxies.length : Int))
          { s with isRefilling := true }
      else { s with isRefilling := true }) ?_
    split_ifs with hg
    · exact tryUsingCachedProxies_unique cfg env _ _ hu
    · exact hu

/-- Removal preserves uniqueness (the result is a sublist). -/
theorem removeProxy_unique (cfg : Config) (now : Int) (ip port : String)
    (s : PoolState) (hu : poolUnique s.availableProxies) :
    poolUnique ((removeProxy cfg now ip port s).2.availableProxies) := by
  unfold removeProxy
  simp only
  exact List.Pairwise.sublist (List.filter_sublist _) hu

/-- Claim C2: under any sequence of refill cycles, admission batches, and
removals, no two pool members ever share `(host, port)`; and admitting a
single candidate whose `(host, port)` already appears in the pool is a
no-op. -/
theorem pool_uniqueness (cfg : Config) (ops : List PoolOp) (s : PoolState)
    (hu : poolUnique s.availableProxies) :
    poolUnique (applyOps cfg ops s).availableProxies ∧
    (∀ (env : Env) (proxy : String),
      (s.availableProxies.any fun p =>
        p.ip == (splitProxy proxy).1 && p.port == (splitProxy proxy).2) = true →
      addValidProxies cfg env [(proxy, true)] s = s) := by
  constructor
  · induction ops generalizing s with
    | nil => exact hu
    | cons op rest ih =>
      rw [applyOps, List.foldl_cons]
      refine ih _ ?_
      cases op with
      | refill env => exact refillProxies_unique cfg env s hu
      | addBatch env results => exact addValidProxies_unique cfg env results s hu
      | remove now ip port => exact removeProxy_unique cfg now ip port s hu
  · intro env proxy hdup
    rw [addValidProxies]
    rw [if_pos rfl, if_pos hdup]
    rfl

/-- Witness for the uniqueness theorem on the concrete pool `sRR` under the
concrete mutation sequence `opsW`, plus the duplicate-admission no-op at the
address of its first member. -/
theorem pool_uniqueness_witness :
    poolUnique (applyOps defaultConfig opsW sRR).availableProxies ∧
    addValidProxies defaultConfig envT1 [("1.1.1.1:80", true)] sRR = sRR :=
  ⟨(pool_uniqueness defaultConfig opsW sRR (by simp [poolUnique, sRR])).1,
   (pool_uniqueness defaultConfig opsW sRR (by simp [poolUnique, sRR])).2
     envT1 "1.1.1.1:80" (by decide)⟩
